import Mathlib

/-!
Verification of the `skillpkg` example CLI (files
`scripts/utils/helpers/formatter.py` and `scripts/main.py`).

Python strings are modelled as Lean `String`s (sequences of characters);
`len` is `String.length`, `+` on strings is `++`, and `"=" * n` is
`String.mk (List.replicate n '=')`.
-/

/-- Embedding of `format_output` from `formatter.py`:
`border = "=" * (len(message) + 4)` and the result is the f-string
`f"{border}\n| {message} |\n{border}"`. -/
def format_output (message : String) : String :=
  let border := String.mk (List.replicate (message.length + 4) '=')
  border ++ "\n| " ++ message ++ " |\n" ++ border

/-- Model of Python `s.split("\n")` on the character list of a string:
splits at every newline, keeping empty pieces, and yields `[[]]` on the
empty string. -/
def splitOnNewline : List Char → List (List Char)
  | [] => [[]]
  | c :: cs =>
    match splitOnNewline cs with
    | [] => [[c]]
    | l :: ls => if c = '\n' then [] :: l :: ls else (c :: l) :: ls

/-- The character list of a formatted block, fully unfolded. -/
theorem format_output_data (m : String) :
    (format_output m).data =
      List.replicate (m.length + 4) '=' ++
        '\n' :: '|' :: ' ' ::
          (m.data ++ ' ' :: '|' :: '\n' :: List.replicate (m.length + 4) '=') := by
  simp [format_output, String.data_append]

/-- Length of a formatted block. -/
theorem format_output_length (m : String) :
    (format_output m).length = 3 * m.length + 14 := by
  have h : (format_output m).length = (format_output m).data.length := rfl
  rw [h, format_output_data]
  have hm : m.data.length = m.length := rfl
  simp [List.length_append, hm]
  omega

/-- C1: for every string `message`, `format_output message` is the border
line of `len(message) + 4` equals signs, a newline, the line
`"| " ++ message ++ " |"`, a newline, and the border line again. -/
theorem format_output_shape (m : String) :
    format_output m =
      String.mk (List.replicate (m.length + 4) '=') ++ "\n" ++
        ("| " ++ m ++ " |") ++ "\n" ++
        String.mk (List.replicate (m.length + 4) '=') := by
  apply String.ext
  rw [format_output_data]
  simp [String.data_append]

/-- C7: `format_output ""` has border lines of exactly four equals signs
and middle line `"|  |"`. -/
theorem format_output_empty :
    splitOnNewline (format_output "").data =
      [['=', '=', '=', '='], ['|', ' ', ' ', '|'], ['=', '=', '=', '=']] := by
  decide

/-- C8: `format_output "ok"` is exactly the string with six equals signs
in each border line. -/
theorem format_output_ok : format_output "ok" = "======\n| ok |\n======" := by
  decide

/-- C9: `format_output` is total and effect-free: every input yields a
(well-defined) result — of length `3 * len + 14` — and equal inputs give
equal outputs. -/
theorem format_output_pure (m₁ m₂ : String) (h : m₁ = m₂) :
    format_output m₁ = format_output m₂ ∧
      (format_output m₁).length = 3 * m₁.length + 14 :=
  ⟨congrArg format_output h, format_output_length m₁⟩

/-- Witness for C9 at the concrete input `"ok"`. -/
theorem format_output_pure_witness :
    ("ok" : String) = "ok" ∧
      (format_output "ok" = format_output "ok" ∧
        (format_output "ok").length = 3 * ("ok" : String).length + 14) :=
  ⟨rfl, format_output_pure "ok" "ok" rfl⟩

/-- `splitOnNewline` never returns the empty list. -/
theorem splitOnNewline_ne_nil (l : List Char) : splitOnNewline l ≠ [] := by
  cases l with
  | nil => simp [splitOnNewline]
  | cons c cs =>
    rcases h : splitOnNewline cs with _ | ⟨a, as⟩
    · simp [splitOnNewline, h]
    · by_cases hc : c = '\n' <;> simp [splitOnNewline, h, hc]

/-- A newline-free character list is a single line. -/
theorem splitOnNewline_of_not_mem {xs : List Char} (h : '\n' ∉ xs) :
    splitOnNewline xs = [xs] := by
  induction xs with
  | nil => rfl
  | cons c cs ih =>
    have hc : ¬ c = '\n' := fun e => h (e ▸ List.mem_cons_self c cs)
    have hcs : '\n' ∉ cs := fun hm => h (List.mem_cons_of_mem c hm)
    simp [splitOnNewline, ih hcs, hc]

/-- Splitting past a newline that follows a newline-free chunk. -/
theorem splitOnNewline_append_newline {xs : List Char} (ys : List Char)
    (h : '\n' ∉ xs) :
    splitOnNewline (xs ++ '\n' :: ys) = xs :: splitOnNewline ys := by
  induction xs with
  | nil =>
    simp only [List.nil_append, splitOnNewline]
    cases hys : splitOnNewline ys with
    | nil => exact absurd hys (splitOnNewline_ne_nil ys)
    | cons l ls => simp
  | cons c cs ih =>
    have hc : ¬ c = '\n' := fun e => h (e ▸ List.mem_cons_self c cs)
    have hcs : '\n' ∉ cs := fun hm => h (List.mem_cons_of_mem c hm)
    simp [splitOnNewline, ih hcs, hc]

/-- No newline occurs in a border line. -/
theorem newline_not_mem_border (n : Nat) :
    '\n' ∉ List.replicate n ('=' : Char) := by
  intro hm
  rw [List.mem_replicate] at hm
  exact absurd hm.2 (by decide)

/-- For a newline-free message, the formatted block splits into exactly
the border, the middle line and the border. -/
theorem splitOnNewline_format_output (m : String) (h : '\n' ∉ m.data) :
    splitOnNewline (format_output m).data =
      [List.replicate (m.length + 4) '=',
       '|' :: ' ' :: (m.data ++ [' ', '|']),
       List.replicate (m.length + 4) '='] := by
  have hshape : (format_output m).data =
      List.replicate (m.length + 4) '=' ++
        '\n' :: (('|' :: ' ' :: (m.data ++ [' ', '|'])) ++
          '\n' :: List.replicate (m.length + 4) '=') := by
    rw [format_output_data]; simp
  have hmid : '\n' ∉ '|' :: ' ' :: (m.data ++ [' ', '|']) := by
    intro hm
    rcases List.mem_cons.mp hm with h1 | hm2
    · exact absurd h1 (by decide)
    rcases List.mem_cons.mp hm2 with h1 | hm3
    · exact absurd h1 (by decide)
    rcases List.mem_append.mp hm3 with h1 | h1
    · exact h h1
    rcases List.mem_cons.mp h1 with h2 | h2
    · exact absurd h2 (by decide)
    rcases List.mem_cons.mp h2 with h3 | h3
    · exact absurd h3 (by decide)
    exact absurd h3 (List.not_mem_nil _)
  rw [hshape,
    splitOnNewline_append_newline _ (newline_not_mem_border (m.length + 4)),
    splitOnNewline_append_newline _ hmid,
    splitOnNewline_of_not_mem (newline_not_mem_border (m.length + 4))]

/-- C2 counterexample: for the message consisting of a single newline,
the formatted block does not split into 3 lines (it has 4). -/
theorem format_output_newline_not_three_lines :
    ¬ (splitOnNewline (format_output "\n").data).length = 3 := by
  decide

/-- C2 (amended to newline-free messages): for every string `m` with no
newline character, `format_output m` splits into exactly 3 lines, the
first and third lines are equal, the first line has length
`m.length + 4`, and the second line is `"| " ++ m ++ " |"`. -/
theorem format_output_three_lines (m : String) (h : '\n' ∉ m.data) :
    ∃ l₁ l₂ l₃,
      splitOnNewline (format_output m).data = [l₁, l₂, l₃] ∧
        l₁ = l₃ ∧ l₁.length = m.length + 4 ∧
        l₂ = ("| " ++ m ++ " |").data := by
  refine ⟨_, _, _, splitOnNewline_format_output m h, rfl, by simp, ?_⟩
  simp [String.data_append]

/-- Witness for the amended C2 at the concrete input `"ok"`. -/
theorem format_output_three_lines_witness :
    ('\n' ∉ ("ok" : String).data) ∧
      ∃ l₁ l₂ l₃,
        splitOnNewline (format_output "ok").data = [l₁, l₂, l₃] ∧
          l₁ = l₃ ∧ l₁.length = ("ok" : String).length + 4 ∧
          l₂ = ("| " ++ "ok" ++ " |").data :=
  ⟨by decide, format_output_three_lines "ok" (by decide)⟩

/-- C10: `format_output` is injective — the message is recoverable from
the formatted block. -/
theorem format_output_injective (m₁ m₂ : String)
    (h : format_output m₁ = format_output m₂) : m₁ = m₂ := by
  have hlen : m₁.length = m₂.length := by
    have hl := congrArg String.length h
    rw [format_output_length, format_output_length] at hl
    omega
  have hdata := congrArg String.data h
  rw [format_output_data, format_output_data, hlen] at hdata
  have htail := (List.append_inj hdata (by simp)).2
  simp only [List.cons.injEq, true_and] at htail
  have hdl : m₁.data.length = m₂.data.length := hlen
  exact String.ext (List.append_inj htail hdl).1

/-- Witness for C10 at the concrete input `"a"`. -/
theorem format_output_injective_witness :
    format_output "a" = format_output "a" ∧ ("a" : String) = "a" :=
  ⟨rfl, format_output_injective "a" "a" rfl⟩

/-- Model of the JSON values produced by the Python json module: null,
booleans, numbers (modelled as integers; floating-point numbers are outside
the scope of this embedding), strings, arrays, and objects as ordered
member lists (later duplicate keys overwrite earlier ones on lookup, as in
a Python dict built by json.load). -/
inductive Json where
  | null
  | bool (b : Bool)
  | num (n : Int)
  | str (s : String)
  | arr (elems : List Json)
  | obj (members : List (String × Json))

/-- Escaping of one character inside a Python string repr that uses quote
character `q`: backslash, the quote character, newline, carriage return and
tab are escaped; other (printable) characters stand for themselves. -/
def pyEscape (q c : Char) : String :=
  if c = '\\' then "\\\\"
  else if c = q then "\\" ++ String.mk [q]
  else if c = '\n' then "\\n"
  else if c = '\r' then "\\r"
  else if c = '\t' then "\\t"
  else String.mk [c]

/-- Model of Python repr on a string: wrapped in single quotes, or in
double quotes when the string contains a single quote but no double
quote, with `pyEscape` applied to every character. -/
def pyReprStr (s : String) : String :=
  let q : Char := if s.data.contains '\x27' && !(s.data.contains '"') then '"' else '\x27'
  String.mk [q] ++ String.join (s.data.map (pyEscape q)) ++ String.mk [q]

mutual

/-- Model of Python repr on a decoded JSON value, as used for elements of
containers: None, True, False, numbers, quoted strings, bracketed lists
and braced dicts with comma-separated members. -/
def pyRepr : Json → String
  | .null => "None"
  | .bool b => if b then "True" else "False"
  | .num n => toString n
  | .str s => pyReprStr s
  | .arr es => "[" ++ pyReprList es ++ "]"
  | .obj ms => "\x7b" ++ pyReprMembers ms ++ "\x7d"

/-- Comma-separated reprs of the elements of a JSON array. -/
def pyReprList : List Json → String
  | [] => ""
  | [x] => pyRepr x
  | x :: xs => pyRepr x ++ ", " ++ pyReprList xs

/-- Comma-separated `key: value` reprs of the members of a JSON object. -/
def pyReprMembers : List (String × Json) → String
  | [] => ""
  | [(k, v)] => pyReprStr k ++ ": " ++ pyRepr v
  | (k, v) :: xs => pyReprStr k ++ ": " ++ pyRepr v ++ ", " ++ pyReprMembers xs

end

/-- Model of Python str applied to a decoded JSON value, as the f-string
`f"Loaded config: {config['name']}"` stringifies it: a string value is
inserted as itself, every other value by its repr. -/
def pyStr (v : Json) : String :=
  match v with
  | .str s => s
  | _ => pyRepr v

/-- Lookup in a Python dict built from an ordered member list by
json.load: the binding added last wins. -/
def dictLookup (members : List (String × Json)) (k : String) : Option Json :=
  match members with
  | [] => none
  | (k₁, v₁) :: rest =>
    match dictLookup rest k with
    | some r => some r
    | none => if k₁ = k then some v₁ else none

/-- Errors that `config["name"]` can raise in Python. -/
inductive PyError where
  | keyError (k : String)
  | typeError
deriving DecidableEq

/-- Model of the Python subscript `v[k]` with a string key on a decoded
JSON value: a dict is looked up (KeyError when the key is absent); every
non-dict value raises TypeError. -/
def getItem (v : Json) (k : String) : Except PyError Json :=
  match v with
  | .obj members =>
    match dictLookup members k with
    | some r => Except.ok r
    | none => Except.error (PyError.keyError k)
  | _ => Except.error PyError.typeError

/-- What the filesystem holds at the path passed via `--config`: the file
is missing or unreadable, or it exists but its contents are not valid
JSON, or it parses (by json.load) to a JSON value. -/
inductive FileContent where
  | missing
  | invalidJson
  | json (v : Json)

/-- Observable outcome of one run of the CLI process: the lines printed
to standard output, the exit status, and the diagnostic written to
standard error (none on success). -/
structure MainResult where
  stdout : List String
  exitCode : Nat
  diagnostic : Option String
deriving DecidableEq

/-- The fixed success line printed by `main.py`. -/
def successLine : String := "✅ Complex skill executed successfully!"

/-- Diagnostic printed by argparse when the required `--config` flag is
absent (argparse exits with status 2). -/
def usageMessage : String :=
  "usage: main.py [-h] --config CONFIG\nmain.py: error: the following arguments are required: --config"

/-- Embedding of `main` from `main.py`. The command line is abstracted to
the value of the required `--config` flag (`none` when absent or
malformed, in which case argparse terminates the process), and the
filesystem to a map from paths to `FileContent`. An uncaught Python
exception (FileNotFoundError, JSONDecodeError, KeyError, TypeError)
terminates the process with exit status 1 and a traceback on standard
error, printing nothing to standard output. -/
def Cli.main (configArg : Option String) (fs : String → FileContent) : MainResult :=
  match configArg with
  | none => { stdout := [], exitCode := 2, diagnostic := some usageMessage }
  | some path =>
    match fs path with
    | .missing =>
        { stdout := [], exitCode := 1, diagnostic := some "FileNotFoundError" }
    | .invalidJson =>
        { stdout := [], exitCode := 1, diagnostic := some "json.decoder.JSONDecodeError" }
    | .json v =>
      match getItem v "name" with
      | .error (.keyError k) =>
          { stdout := [], exitCode := 1, diagnostic := some ("KeyError: " ++ pyReprStr k) }
      | .error .typeError =>
          { stdout := [], exitCode := 1, diagnostic := some "TypeError" }
      | .ok nameVal =>
          { stdout := [format_output ("Loaded config: " ++ pyStr nameVal), successLine],
            exitCode := 0, diagnostic := none }

/-- A config file that parses to an object with a `name` binding makes
the run succeed, printing the formatted message and the success line. -/
theorem main_success_aux (fs : String → FileContent) (p : String)
    (kvs : List (String × Json)) (v : Json)
    (h1 : fs p = .json (.obj kvs)) (h2 : dictLookup kvs "name" = some v) :
    Cli.main (some p) fs =
      { stdout := [format_output ("Loaded config: " ++ pyStr v), successLine],
        exitCode := 0, diagnostic := none } := by
  simp [Cli.main, h1, getItem, h2]

/-- C3: with `--config` pointing to a readable file containing the JSON
object with the single member `name ↦ "demo"`, the CLI prints exactly
`format_output "Loaded config: demo"` and then the fixed success line, in
that order, and exits with status 0. -/
theorem main_demo_config (fs : String → FileContent) (p : String)
    (h : fs p = .json (.obj [("name", .str "demo")])) :
    Cli.main (some p) fs =
      { stdout := [format_output "Loaded config: demo", successLine],
        exitCode := 0, diagnostic := none } := by
  have hmain := main_success_aux fs p [("name", .str "demo")] (.str "demo") h rfl
  have hs : ("Loaded config: " ++ pyStr (Json.str "demo")) = "Loaded config: demo" := by
    decide
  rw [hs] at hmain
  exact hmain

/-- Witness for C3 at a concrete path and filesystem. -/
theorem main_demo_config_witness :
    ((fun _ => FileContent.json (Json.obj [("name", Json.str "demo")]))
        "cfg.json" = FileContent.json (Json.obj [("name", Json.str "demo")])) ∧
      Cli.main (some "cfg.json")
          (fun _ => FileContent.json (Json.obj [("name", Json.str "demo")])) =
        { stdout := [format_output "Loaded config: demo", successLine],
          exitCode := 0, diagnostic := none } :=
  ⟨rfl, main_demo_config _ _ rfl⟩

/-- The error taxonomy of the spec: the `--config` argument is absent (or
malformed, which argparse also rejects), the referenced file is missing or
unreadable, its contents are not valid JSON, or the parsed JSON object has
no `name` key. -/
def ErrorCondition (configArg : Option String) (fs : String → FileContent) : Prop :=
  configArg = none ∨
    ∃ p, configArg = some p ∧
      (fs p = .missing ∨ fs p = .invalidJson ∨
        ∃ kvs, fs p = .json (.obj kvs) ∧ dictLookup kvs "name" = none)

/-- C4: under every condition of the error taxonomy the process
terminates with a non-zero exit status and a diagnostic message; none is
retried or downgraded to success. -/
theorem main_error_cases (configArg : Option String) (fs : String → FileContent)
    (h : ErrorCondition configArg fs) :
    (Cli.main configArg fs).exitCode ≠ 0 ∧
      (Cli.main configArg fs).diagnostic.isSome := by
  rcases h with h | ⟨p, hp, h⟩
  · subst h; simp [Cli.main]
  subst hp
  rcases h with h | h | ⟨kvs, h1, h2⟩
  · simp [Cli.main, h]
  · simp [Cli.main, h]
  · simp [Cli.main, h1, getItem, h2]

/-- Witness for C4: the `--config` flag absent. -/
theorem main_error_cases_witness :
    ErrorCondition none (fun _ => FileContent.missing) ∧
      ((Cli.main none (fun _ => FileContent.missing)).exitCode ≠ 0 ∧
        (Cli.main none (fun _ => FileContent.missing)).diagnostic.isSome) :=
  ⟨Or.inl rfl, main_error_cases none (fun _ => FileContent.missing) (Or.inl rfl)⟩

/-- C5: when the `--config` path names a missing file the CLI exits with
a non-zero status and prints nothing (in particular no bordered block) to
standard output. -/
theorem main_missing_file (fs : String → FileContent) (p : String)
    (h : fs p = .missing) :
    (Cli.main (some p) fs).exitCode ≠ 0 ∧
      (Cli.main (some p) fs).stdout = [] := by
  simp [Cli.main, h]

/-- Witness for C5 at a concrete path and filesystem. -/
theorem main_missing_file_witness :
    ((fun _ => FileContent.missing) "absent.json" = FileContent.missing) ∧
      ((Cli.main (some "absent.json") (fun _ => FileContent.missing)).exitCode ≠ 0 ∧
        (Cli.main (some "absent.json") (fun _ => FileContent.missing)).stdout = []) :=
  ⟨rfl, main_missing_file (fun _ => FileContent.missing) "absent.json" rfl⟩

/-- C6: any JSON value under the `name` key is accepted — the run
succeeds and the message handed to the formatter is `"Loaded config: "`
followed by the stringification of that value. -/
theorem main_accepts_any_name_value (fs : String → FileContent) (p : String)
    (kvs : List (String × Json)) (v : Json)
    (h1 : fs p = .json (.obj kvs)) (h2 : dictLookup kvs "name" = some v) :
    (Cli.main (some p) fs).exitCode = 0 ∧
      (Cli.main (some p) fs).stdout =
        [format_output ("Loaded config: " ++ pyStr v), successLine] := by
  rw [main_success_aux fs p kvs v h1 h2]
  exact ⟨rfl, rfl⟩

/-- Witness for C6 at the non-string value `42`. -/
theorem main_accepts_any_name_value_witness :
    ((fun _ => FileContent.json (Json.obj [("name", Json.num 42)])) "c.json" =
        FileContent.json (Json.obj [("name", Json.num 42)])) ∧
      dictLookup [("name", Json.num 42)] "name" = some (Json.num 42) ∧
      (((Cli.main (some "c.json")
            (fun _ => FileContent.json (Json.obj [("name", Json.num 42)]))).exitCode = 0) ∧
        (Cli.main (some "c.json")
            (fun _ => FileContent.json (Json.obj [("name", Json.num 42)]))).stdout =
          [format_output ("Loaded config: " ++ pyStr (Json.num 42)), successLine]) :=
  ⟨rfl, rfl, main_accepts_any_name_value _ _ _ _ rfl rfl⟩
